import Mathlib

/-!
Verification development for the Make.com reconciliation layer
(terraform-provider-make): a shallow embedding of the API client
(part_001: MakeRequest/HandleErrorResponse and the per-kind gateways),
the scenario resource reconciliation operations
(internal/provider/scenario_resource.go) and the settings normalization
switch (internal/provider/connection_resource.go, WebhookResource.Create),
together with theorems settling the specification's claims about them.

HTTP transport is abstracted: each gateway operation takes the remote's
HTTP response (status code and raw body) as an explicit input, exactly the
data the Go code inspects after MakeRequest returns.  Go's encoding/json
behaviour on the two record shapes used by the embedded code is modelled
by an executable JSON parser below.
-/

namespace Make

/-- A JSON value, as produced by the parser modelling encoding/json.
Number lexemes are kept verbatim. -/
inductive Json where
  | null
  | bool (b : Bool)
  | num (lexeme : String)
  | str (s : String)
  | arr (elems : List Json)
  | obj (fields : List (String × Json))
  deriving Inhabited

/-- JSON insignificant whitespace. -/
def isJsonWs (c : Char) : Bool :=
  c = ' ' || c = '\t' || c = '\n' || c = '\r'

/-- Drop leading JSON whitespace. -/
def skipWs : List Char → List Char
  | [] => []
  | c :: cs => if isJsonWs c then skipWs cs else c :: cs

/-- Value of a hexadecimal digit. -/
def hexVal (c : Char) : Option Nat :=
  if '0' ≤ c ∧ c ≤ '9' then some (c.toNat - '0'.toNat)
  else if 'a' ≤ c ∧ c ≤ 'f' then some (c.toNat - 'a'.toNat + 10)
  else if 'A' ≤ c ∧ c ≤ 'F' then some (c.toNat - 'A'.toNat + 10)
  else none

/-- Decode one escape sequence (the character after the backslash,
plus following input for the \x5cu form). -/
def unescapeChar (e : Char) (rest : List Char) : Option (Char × List Char) :=
  if e = '"' then some ('"', rest)
  else if e = '\\' then some ('\\', rest)
  else if e = '/' then some ('/', rest)
  else if e = 'b' then some ('\x08', rest)
  else if e = 'f' then some ('\x0C', rest)
  else if e = 'n' then some ('\n', rest)
  else if e = 'r' then some ('\r', rest)
  else if e = 't' then some ('\t', rest)
  else if e = 'u' then
    match rest with
    | a :: b :: c :: d :: rest2 =>
      match hexVal a, hexVal b, hexVal c, hexVal d with
      | some x, some y, some z, some w =>
        some (Char.ofNat (((x * 16 + y) * 16 + z) * 16 + w), rest2)
      | _, _, _, _ => none
    | _ => none
  else none

/-- Parse the characters of a JSON string after the opening quote,
consuming the closing quote.  Fueled for termination. -/
def parseStrChars : Nat → List Char → Option (List Char × List Char)
  | 0, _ => none
  | _, [] => none
  | Nat.succ fuel, c :: cs =>
    if c = '"' then some ([], cs)
    else if c = '\\' then
      match cs with
      | [] => none
      | e :: cs2 =>
        match unescapeChar e cs2 with
        | some (d, cs3) =>
          match parseStrChars fuel cs3 with
          | some (l, rest) => some (d :: l, rest)
          | none => none
        | none => none
    else
      match parseStrChars fuel cs with
      | some (l, rest) => some (c :: l, rest)
      | none => none

/-- Split off a maximal run of leading decimal digits. -/
def takeDigits : List Char → List Char × List Char
  | [] => ([], [])
  | c :: cs =>
    if '0' ≤ c ∧ c ≤ '9' then
      let (ds, rest) := takeDigits cs
      (c :: ds, rest)
    else ([], c :: cs)

/-- Parse the fractional part of a JSON number, if present. -/
def parseFracPart : List Char → Option (List Char × List Char)
  | '.' :: t =>
    match takeDigits t with
    | ([], _) => none
    | (ds, r) => some ('.' :: ds, r)
  | cs => some ([], cs)

/-- Parse the exponent part of a JSON number, if present. -/
def parseExpPart : List Char → Option (List Char × List Char)
  | [] => some ([], [])
  | e :: t =>
    if e = 'e' ∨ e = 'E' then
      let (sgn, t1) :=
        match t with
        | '+' :: u => (['+'], u)
        | '-' :: u => (['-'], u)
        | _ => (([] : List Char), t)
      match takeDigits t1 with
      | ([], _) => none
      | (ds, r) => some (e :: (sgn ++ ds), r)
    else some ([], e :: t)

/-- Parse a JSON number token, returning its lexeme. -/
def parseNumToken (cs : List Char) : Option (List Char × List Char) :=
  let (sgn, cs1) :=
    match cs with
    | '-' :: t => ((['-'] : List Char), t)
    | _ => ([], cs)
  match takeDigits cs1 with
  | ([], _) => none
  | (ds, cs2) =>
    match parseFracPart cs2 with
    | none => none
    | some (fr, cs3) =>
      match parseExpPart cs3 with
      | none => none
      | some (ex, cs4) => some (sgn ++ ds ++ fr ++ ex, cs4)

/-- Parse the members of a JSON object after the opening brace, using the
given value parser for the member values (fueled, one unit per member). -/
def parseMembersWith (pv : List Char → Option (Json × List Char)) :
    Nat → List Char → List (String × Json) → Option (Json × List Char)
  | 0, _, _ => none
  | Nat.succ fuel, cs, acc =>
    match cs with
    | '"' :: r =>
      match parseStrChars (r.length + 1) r with
      | some (kl, r1) =>
        match skipWs r1 with
        | ':' :: r2 =>
          match pv r2 with
          | some (v, r3) =>
            match skipWs r3 with
            | ',' :: r4 => parseMembersWith pv fuel (skipWs r4) (acc ++ [(String.mk kl, v)])
            | '\x7d' :: r4 => some (.obj (acc ++ [(String.mk kl, v)]), r4)
            | _ => none
          | none => none
        | _ => none
      | none => none
    | _ => none

/-- Parse the elements of a JSON array after the opening bracket, using
the given value parser for the elements (fueled, one unit per element). -/
def parseElemsWith (pv : List Char → Option (Json × List Char)) :
    Nat → List Char → List Json → Option (Json × List Char)
  | 0, _, _ => none
  | Nat.succ fuel, cs, acc =>
    match pv cs with
    | some (v, r) =>
      match skipWs r with
      | ',' :: r2 => parseElemsWith pv fuel r2 (acc ++ [v])
      | ']' :: r2 => some (.arr (acc ++ [v]), r2)
      | _ => none
    | none => none

/-- Parse one JSON value; the fuel bounds the nesting depth. -/
def parseValue : Nat → List Char → Option (Json × List Char)
  | 0, _ => none
  | Nat.succ fuel, cs0 =>
    match skipWs cs0 with
    | [] => none
    | 'n' :: 'u' :: 'l' :: 'l' :: r => some (.null, r)
    | 't' :: 'r' :: 'u' :: 'e' :: r => some (.bool true, r)
    | 'f' :: 'a' :: 'l' :: 's' :: 'e' :: r => some (.bool false, r)
    | '"' :: r =>
      match parseStrChars (r.length + 1) r with
      | some (l, rest) => some (.str (String.mk l), rest)
      | none => none
    | '\x7b' :: r =>
      match skipWs r with
      | '\x7d' :: rest => some (.obj [], rest)
      | r2 => parseMembersWith (fun cs2 => parseValue fuel cs2) (r2.length + 1) r2 []
    | '[' :: r =>
      match skipWs r with
      | ']' :: rest => some (.arr [], rest)
      | r2 => parseElemsWith (fun cs2 => parseValue fuel cs2) (r2.length + 1) r2 []
    | cs =>
      match parseNumToken cs with
      | some (lex, rest) => some (.num (String.mk lex), rest)
      | none => none


/-- Strict JSON parse of a whole input, as json.Unmarshal requires:
one value with only trailing whitespace permitted. -/
def Json.parse (s : String) : Option Json :=
  match parseValue (s.length + 1) s.data with
  | some (j, rest) => if (skipWs rest).isEmpty then some j else none
  | none => none

/-- Lenient JSON parse of a leading value, as json.Decoder.Decode performs
on a response body: trailing data is not inspected. -/
def Json.parseLeading (s : String) : Option Json :=
  match parseValue (s.length + 1) s.data with
  | some (j, _) => some j
  | none => none

/-- Case-insensitive key equality against a lowercase field tag, as
encoding/json matches object keys against struct field tags. -/
def keyMatches (key name : String) : Bool :=
  key.data.map Char.toLower = name.data

/-- The object field bound to a struct field tag: the last matching key wins,
as successive occurrences overwrite during decoding. -/
def jsonField (fields : List (String × Json)) (name : String) : Option Json :=
  (fields.reverse.find? fun kv => keyMatches kv.1 name).map fun kv => kv.2

/-- Decode a Go string struct field: absent or null leaves the zero value,
a JSON string is taken verbatim, anything else is an unmarshal type error. -/
def decodeStringField (fields : List (String × Json)) (name : String) : Option String :=
  match jsonField fields name with
  | none => some ""
  | some .null => some ""
  | some (.str s) => some s
  | some _ => none

/-- Decode a Go bool struct field, with the same absence and error rules. -/
def decodeBoolField (fields : List (String × Json)) (name : String) : Option Bool :=
  match jsonField fields name with
  | none => some false
  | some .null => some false
  | some (.bool b) => some b
  | some _ => none

/-- Value of a nonempty run of decimal digits, none on any other character. -/
def natFromDigits : List Char → Option Nat → Option Nat
  | [], acc => acc
  | c :: cs, acc =>
    if '0' ≤ c ∧ c ≤ '9' then
      match acc with
      | none => natFromDigits cs (some (c.toNat - '0'.toNat))
      | some n => natFromDigits cs (some (n * 10 + (c.toNat - '0'.toNat)))
    else none

/-- Integer value of a JSON number lexeme, none when the lexeme carries a
fraction or exponent: Go errors when unmarshalling such a number into int. -/
def intFromLexeme (s : String) : Option Int :=
  match s.data with
  | '-' :: ds => (natFromDigits ds none).map fun n => -(n : Int)
  | ds => (natFromDigits ds none).map fun n => (n : Int)

/-- Decode a Go int struct field, with the same absence and error rules. -/
def decodeIntField (fields : List (String × Json)) (name : String) : Option Int :=
  match jsonField fields name with
  | none => some 0
  | some .null => some 0
  | some (.num lexeme) => intFromLexeme lexeme
  | some _ => none

/-- ErrorResponse represents an error response from the Make.com API
(part_001): Error, Message and Code fields, all with omitempty tags. -/
structure ErrorResponse where
  error : String
  message : String
  code : Int
  deriving Repr, DecidableEq, Inhabited

/-- json.Unmarshal of a response body into ErrorResponse: none models a
returned unmarshal error, some models success (JSON null leaves the zero
struct, per encoding/json). -/
def unmarshalErrorResponse (body : String) : Option ErrorResponse :=
  match Json.parse body with
  | none => none
  | some .null => some { error := "", message := "", code := 0 }
  | some (.obj fields) =>
    match decodeStringField fields "error", decodeStringField fields "message",
        decodeIntField fields "code" with
    | some e, some m, some c => some { error := e, message := m, code := c }
    | _, _, _ => none
  | some _ => none

/-- A Go error value: everything the embedded code constructs goes through
fmt.Errorf, so an error is its message string. -/
structure GoError where
  message : String
  deriving Repr, DecidableEq, Inhabited

/-- An HTTP exchange's result as the gateways see it after MakeRequest:
the status code and the raw response body. -/
structure HttpResponse where
  statusCode : Nat
  body : String
  deriving Repr, DecidableEq, Inhabited

/-- The wrapper fmt.Errorf format used by HandleErrorResponse:
API request failed with status {d}: {s}. -/
def apiFailMsg (statusCode : Nat) (detail : String) : String :=
  "API request failed with status " ++ (toString statusCode ++ (": " ++ detail))

/-- HandleErrorResponse (part_001 lines 77-99): read the body, try to
unmarshal an ErrorResponse, prefer its Message, then its Error, then the
raw body text; an unmarshal failure also falls back to the raw body. -/
def HandleErrorResponse (resp : HttpResponse) : GoError :=
  match unmarshalErrorResponse resp.body with
  | none => { message := apiFailMsg resp.statusCode resp.body }
  | some errorResp =>
    let message := errorResp.message
    let message := if message = "" then errorResp.error else message
    let message := if message = "" then resp.body else message
    { message := apiFailMsg resp.statusCode message }

/-- ScenarioResponse represents a Make.com scenario from the API
(part_001): ID, Name, Description (omitempty), Active (is_active),
TeamID (team_id, omitempty). -/
structure ScenarioResponse where
  id : String
  name : String
  description : String
  active : Bool
  teamID : String
  deriving Repr, DecidableEq, Inhabited

/-- ScenarioRequest: the create/update payload for scenarios (part_001). -/
structure ScenarioRequest where
  name : String
  description : String
  active : Bool
  teamID : String
  deriving Repr, DecidableEq, Inhabited

/-- json.Decoder.Decode of a response body into ScenarioResponse
(lenient about trailing data; JSON null leaves the zero struct). -/
def decodeScenarioResponse (body : String) : Option ScenarioResponse :=
  match Json.parseLeading body with
  | none => none
  | some .null => some { id := "", name := "", description := "", active := false, teamID := "" }
  | some (.obj fields) =>
    match decodeStringField fields "id", decodeStringField fields "name",
        decodeStringField fields "description", decodeBoolField fields "is_active",
        decodeStringField fields "team_id" with
    | some i, some n, some d, some a, some t =>
      some { id := i, name := n, description := d, active := a, teamID := t }
    | _, _, _, _, _ => none
  | some _ => none

/-- The not-found message GetScenario and UpdateScenario build on a 404:
scenario with ID {s} not found. -/
def scenarioNotFoundMsg (id : String) : String :=
  "scenario with ID " ++ (id ++ " not found")

/-- The decode-failure message wrapper used by every gateway success path. -/
def decodeFailMsg : String :=
  "failed to decode response"

/-- CreateScenario (part_001 lines 101-119): POST v2/scenarios; status 400
and above goes through HandleErrorResponse, otherwise the body is decoded. -/
def CreateScenario (req : ScenarioRequest) (resp : HttpResponse) :
    Except GoError ScenarioResponse :=
  if 400 ≤ resp.statusCode then
    .error (HandleErrorResponse resp)
  else
    match decodeScenarioResponse resp.body with
    | some scenario => .ok scenario
    | none => .error { message := decodeFailMsg }

/-- GetScenario (part_001 lines 121-144): GET v2/scenarios/{id}; a 404 is
answered with the not-found error before the generic error handling. -/
def GetScenario (id : String) (resp : HttpResponse) :
    Except GoError ScenarioResponse :=
  if resp.statusCode = 404 then
    .error { message := scenarioNotFoundMsg id }
  else if 400 ≤ resp.statusCode then
    .error (HandleErrorResponse resp)
  else
    match decodeScenarioResponse resp.body with
    | some scenario => .ok scenario
    | none => .error { message := decodeFailMsg }

/-- UpdateScenario (part_001 lines 146-169): PUT v2/scenarios/{id}; same
404 and error classification as GetScenario. -/
def UpdateScenario (id : String) (req : ScenarioRequest) (resp : HttpResponse) :
    Except GoError ScenarioResponse :=
  if resp.statusCode = 404 then
    .error { message := scenarioNotFoundMsg id }
  else if 400 ≤ resp.statusCode then
    .error (HandleErrorResponse resp)
  else
    match decodeScenarioResponse resp.body with
    | some scenario => .ok scenario
    | none => .error { message := decodeFailMsg }

/-- DeleteScenario (part_001 lines 171-190): DELETE v2/scenarios/{id};
a 404 means already deleted and returns nil, any other status of 400 or
above is an error, success bodies are ignored. -/
def DeleteScenario (id : String) (resp : HttpResponse) : Except GoError Unit :=
  if resp.statusCode = 404 then
    .ok ()
  else if 400 ≤ resp.statusCode then
    .error (HandleErrorResponse resp)
  else
    .ok ()

/-- A terraform-plugin-framework string attribute value: null, unknown,
or a known string. -/
inductive TFString where
  | null
  | unknown
  | value (s : String)
  deriving Repr, DecidableEq, Inhabited

/-- types.String.IsNull. -/
def TFString.isNull : TFString → Bool
  | .null => true
  | _ => false

/-- types.String.ValueString: the known string, or the empty string when
the value is null or unknown. -/
def TFString.valueString : TFString → String
  | .value s => s
  | _ => ""

/-- A terraform-plugin-framework bool attribute value. -/
inductive TFBool where
  | null
  | unknown
  | value (b : Bool)
  deriving Repr, DecidableEq, Inhabited

/-- types.Bool.ValueBool: the known bool, or false when null or unknown. -/
def TFBool.valueBool : TFBool → Bool
  | .value b => b
  | _ => false

/-- ScenarioResourceModel (scenario_resource.go): id, name, description,
active, team_id. -/
structure ScenarioResourceModel where
  id : TFString
  name : TFString
  description : TFString
  active : TFBool
  teamId : TFString
  deriving Repr, DecidableEq, Inhabited

/-- The request-building block shared by Create and Update
(scenario_resource.go lines 105-117 and 194-206): required fields are
taken unconditionally, optional fields only when non-null (a zero value
stays in the payload otherwise, to be dropped by omitempty). -/
def buildScenarioRequest (data : ScenarioResourceModel) : ScenarioRequest :=
  let apiReq : ScenarioRequest :=
    { name := data.name.valueString, active := data.active.valueBool,
      description := "", teamID := "" }
  let apiReq :=
    if !data.description.isNull then
      { apiReq with description := data.description.valueString }
    else apiReq
  let apiReq :=
    if !data.teamId.isNull then
      { apiReq with teamID := data.teamId.valueString }
    else apiReq
  apiReq

/-- The Create response-mapping block (scenario_resource.go lines 126-137):
computed and required fields are overwritten from the response, optional
fields only when the remote value is non-empty, with no else branch. -/
def scenarioCreateMapState (data : ScenarioResourceModel)
    (scenario : ScenarioResponse) : ScenarioResourceModel :=
  let data :=
    { data with
      id := .value scenario.id
      name := .value scenario.name
      active := .value scenario.active }
  let data :=
    if scenario.description ≠ "" then
      { data with description := .value scenario.description }
    else data
  let data :=
    if scenario.teamID ≠ "" then
      { data with teamId := .value scenario.teamID }
    else data
  data

/-- The Read and Update response-mapping block (scenario_resource.go lines
163-178 and 215-230): like Create's, but an empty remote optional field is
written back as explicit null. -/
def scenarioRefreshState (data : ScenarioResourceModel)
    (scenario : ScenarioResponse) : ScenarioResourceModel :=
  let data :=
    { data with
      id := .value scenario.id
      name := .value scenario.name
      active := .value scenario.active }
  let data :=
    if scenario.description ≠ "" then
      { data with description := .value scenario.description }
    else
      { data with description := .null }
  let data :=
    if scenario.teamID ≠ "" then
      { data with teamId := .value scenario.teamID }
    else
      { data with teamId := .null }
  data

/-- One gateway invocation, recorded so theorems can speak about which
remote operations a reconciliation step performed. -/
inductive GatewayCall where
  | create (req : ScenarioRequest)
  | get (id : String)
  | update (id : String) (req : ScenarioRequest)
  | delete (id : String)
  deriving Repr, DecidableEq

/-- Whether a recorded gateway call is a create. -/
def GatewayCall.isCreate : GatewayCall → Bool
  | .create _ => true
  | _ => false

/-- Result of ScenarioResource.Create: the gateway calls made, the
diagnostic added on failure, and the state written (none when the method
returns before resp.State.Set). -/
structure CreateOutcome where
  calls : List GatewayCall
  diag : Option GoError
  state : Option ScenarioResourceModel
  deriving Repr, DecidableEq

/-- ScenarioResource.Create (scenario_resource.go lines 95-144): build the
request from the plan, call CreateScenario, add a diagnostic and stop on
error, otherwise map the response and save the state. -/
def scenarioResourceCreate (plan : ScenarioResourceModel) (resp : HttpResponse) :
    CreateOutcome :=
  let apiReq := buildScenarioRequest plan
  match CreateScenario apiReq resp with
  | .error err =>
    { calls := [.create apiReq]
      diag := some { message := "Unable to create scenario, got error: " ++ err.message }
      state := none }
  | .ok scenario =>
    { calls := [.create apiReq]
      diag := none
      state := some (scenarioCreateMapState plan scenario) }

/-- Result of ScenarioResource.Read: calls, diagnostic, whether the record
was dropped from state (the method never calls RemoveResource, so this is
false on every path), and the resulting state (the prior state persists
when the method returns early). -/
structure ReadOutcome where
  calls : List GatewayCall
  diag : Option GoError
  removed : Bool
  state : ScenarioResourceModel
  deriving Repr, DecidableEq

/-- ScenarioResource.Read (scenario_resource.go lines 146-182): call
GetScenario with the stored id, add a diagnostic and stop on any error
(a 404 included), otherwise refresh every field from the response. -/
def scenarioResourceRead (prior : ScenarioResourceModel) (resp : HttpResponse) :
    ReadOutcome :=
  let id := prior.id.valueString
  match GetScenario id resp with
  | .error err =>
    { calls := [.get id]
      diag := some { message := "Unable to read scenario, got error: " ++ err.message }
      removed := false
      state := prior }
  | .ok scenario =>
    { calls := [.get id]
      diag := none
      removed := false
      state := scenarioRefreshState prior scenario }

/-- Result of ScenarioResource.Update: calls, diagnostic, and the
resulting state (the prior state persists when the method errors out). -/
structure UpdateOutcome where
  calls : List GatewayCall
  diag : Option GoError
  state : ScenarioResourceModel
  deriving Repr, DecidableEq

/-- ScenarioResource.Update (scenario_resource.go lines 184-234): build the
request from the plan, call UpdateScenario with the plan's id, add a
diagnostic and stop on error, otherwise refresh every field. -/
def scenarioResourceUpdate (prior plan : ScenarioResourceModel)
    (resp : HttpResponse) : UpdateOutcome :=
  let apiReq := buildScenarioRequest plan
  let id := plan.id.valueString
  match UpdateScenario id apiReq resp with
  | .error err =>
    { calls := [.update id apiReq]
      diag := some { message := "Unable to update scenario, got error: " ++ err.message }
      state := prior }
  | .ok scenario =>
    { calls := [.update id apiReq]
      diag := none
      state := scenarioRefreshState plan scenario }

/-- Result of ScenarioResource.Delete: calls and diagnostic. -/
structure DeleteOutcome where
  calls : List GatewayCall
  diag : Option GoError
  deriving Repr, DecidableEq

/-- ScenarioResource.Delete (scenario_resource.go lines 236-252): call
DeleteScenario with the stored id and add a diagnostic on error. -/
def scenarioResourceDelete (prior : ScenarioResourceModel) (resp : HttpResponse) :
    DeleteOutcome :=
  let id := prior.id.valueString
  match DeleteScenario id resp with
  | .error err =>
    { calls := [.delete id]
      diag := some { message := "Unable to delete scenario, got error: " ++ err.message } }
  | .ok _ =>
    { calls := [.delete id], diag := none }

/-- ScenarioResource.ImportState (scenario_resource.go lines 254-257):
write the import ID into the id attribute of an otherwise empty state. -/
def scenarioImportState (importId : String) : ScenarioResourceModel :=
  { id := .value importId, name := .null, description := .null,
    active := .null, teamId := .null }

/-- A dynamically typed settings value (interface value) as the remote
API returns it, the tagged union the type switch in WebhookResource.Create
(connection_resource.go lines 446-469) discriminates on.  A Stringer
carries its String() rendering; an unlisted type carries its generic
Sprintf %v rendering, the only thing the switch's default branch uses. -/
inductive GoValue where
  | str (s : String)
  | stringer (rendered : String)
  | int (z : Int)
  | uint (n : Nat)
  | float (q : ℚ)
  | bool (b : Bool)
  | other (rendered : String)
  deriving Repr, DecidableEq, Inhabited

/-- The decimal digit character for a value below ten. -/
def digitChar (n : Nat) : Char :=
  Char.ofNat ('0'.toNat + n)

/-- The six fraction digits Sprintf %f prints for a scaled absolute value:
the decimal digits of the value modulo 10^6, most significant first. -/
def fracDigits6 (a : Nat) : String :=
  String.mk [digitChar (a / 100000 % 10), digitChar (a / 10000 % 10),
    digitChar (a / 1000 % 10), digitChar (a / 100 % 10),
    digitChar (a / 10 % 10), digitChar (a % 10)]

/-- The value scaled by 10^6 and rounded to the nearest integer (ties
away from zero), a model of the decimal rounding Sprintf %f performs at
six fractional digits; computed on the reduced numerator and denominator
so that it evaluates by kernel reduction. -/
def roundScaled6 (q : ℚ) : Int :=
  let na := q.num.natAbs * 1000000
  let rounded := (2 * na + q.den) / (2 * q.den)
  if q.num < 0 then -(Int.ofNat rounded) else Int.ofNat rounded

/-- Sprintf %f of a floating-point value: the default precision of six
digits after the decimal point. -/
def formatFloat6 (q : ℚ) : String :=
  let scaled := roundScaled6 q
  let a := scaled.natAbs
  let sign := if scaled < 0 then "-" else ""
  (sign ++ toString (a / 1000000)) ++ ("." ++ fracDigits6 a)

/-- Sprintf %d of a signed integer: base-10 digits with a leading minus
sign when negative. -/
def formatInt (z : Int) : String :=
  toString z

/-- Sprintf %d of an unsigned integer. -/
def formatUint (n : Nat) : String :=
  toString n

/-- Sprintf %t of a bool: the lowercase literal. -/
def formatBool (b : Bool) : String :=
  if b then "true" else "false"

/-- The type switch of WebhookResource.Create (connection_resource.go
lines 449-465): string passes through, a Stringer renders via String(),
signed and unsigned integers of any width via %d, float32/float64 via %f,
bool via %t, and everything else falls back to %v. -/
def renderSettingValue : GoValue → String
  | .str val => val
  | .stringer val => val
  | .int val => formatInt val
  | .uint val => formatUint val
  | .float val => formatFloat6 val
  | .bool val => formatBool val
  | .other val => val

/-- The settings conversion loop (connection_resource.go lines 446-468 and
the convertSettingsToStringMap helper exercised by
TestConvertSettingsToStringMap): every entry of the settings map becomes a
string entry under the same key. -/
def convertSettingsToStringMap (settings : List (String × GoValue)) :
    List (String × String) :=
  settings.map fun kv => (kv.1, renderSettingValue kv.2)

/-- Modelled from the spec (section 4.4): strings pass through unchanged,
booleans render as their canonical lowercase literal, integers render as
base-10 digits, floating-point values render with six digits after the
decimal point, and any other value falls back to its generic
human-readable rendering (which for a Stringer is its String() output, the
behaviour Sprintf %v specifies). -/
def specNormalizeValue : GoValue → String
  | .str val => val
  | .bool val => formatBool val
  | .int val => formatInt val
  | .uint val => formatUint val
  | .float val => formatFloat6 val
  | .stringer val => val
  | .other val => val

/-- Modelled from the spec (section 4.2): the error message extraction
policy.  Parse a structured error body with message or error fields;
a non-empty message field wins, else a non-empty error field, and when
parsing fails or both fields are empty the raw body text is used. -/
def specExtractedMessage (body : String) : String :=
  match unmarshalErrorResponse body with
  | some parsed =>
    if parsed.message ≠ "" then parsed.message
    else if parsed.error ≠ "" then parsed.error
    else body
  | none => body

/-- A stub remote backend for the delete idempotency property: answer 200
when the resource is still present, 404 once it is gone. -/
def stubDeleteResponse : Bool → HttpResponse
  | true => { statusCode := 200, body := "" }
  | false => { statusCode := 404, body := "" }

/-- A concrete managed record: scenario a, known fields, no description. -/
def demoPrior : ScenarioResourceModel :=
  { id := .value "a", name := .value "n", description := .null,
    active := .value true, teamId := .null }

/-- A concrete plan carrying a non-empty desired description. -/
def demoPlan : ScenarioResourceModel :=
  { id := .unknown, name := .value "n", description := .value "keep me",
    active := .value true, teamId := .null }

/-- A create response whose record has empty description and team_id. -/
def createRespEmptyOptional : HttpResponse :=
  { statusCode := 200,
    body := "\x7b\"id\":\"x\",\"name\":\"n\",\"is_active\":true,\"description\":\"\",\"team_id\":\"\"\x7d" }

/-- A get response whose record carries a different identifier, b. -/
def readRespDifferentId : HttpResponse :=
  { statusCode := 200,
    body := "\x7b\"id\":\"b\",\"name\":\"n\",\"is_active\":true\x7d" }

/-- Every error HandleErrorResponse builds wears the wrapper format. -/
theorem handleErrorResponse_shape (resp : HttpResponse) :
    ∃ detail, HandleErrorResponse resp = { message := apiFailMsg resp.statusCode detail } := by
  unfold HandleErrorResponse
  cases hu : unmarshalErrorResponse resp.body with
  | none => exact ⟨resp.body, rfl⟩
  | some errorResp => exact ⟨_, rfl⟩

/-- A gateway not-found message is never a HandleErrorResponse message:
the two fmt.Errorf formats differ from their first character on. -/
theorem scenarioNotFoundMsg_ne_apiFailMsg (id : String) (statusCode : Nat)
    (detail : String) : scenarioNotFoundMsg id ≠ apiFailMsg statusCode detail := by
  intro h
  have h1 : (scenarioNotFoundMsg id).data.head? = (apiFailMsg statusCode detail).data.head? := by
    rw [h]
  have e1 : (scenarioNotFoundMsg id).data.head? = some 's' := rfl
  have e2 : (apiFailMsg statusCode detail).data.head? = some 'A' := rfl
  rw [e1, e2] at h1
  exact absurd (Option.some.inj h1) (by decide)

/-- GetScenario reduced on a success response with a decodable body. -/
theorem getScenario_ok (id : String) (resp : HttpResponse) (scenario : ScenarioResponse)
    (hs : resp.statusCode < 400)
    (hd : decodeScenarioResponse resp.body = some scenario) :
    GetScenario id resp = .ok scenario := by
  unfold GetScenario
  rw [if_neg (by omega), if_neg (by omega), hd]

/-- CreateScenario reduced on a success response with a decodable body. -/
theorem createScenario_ok (req : ScenarioRequest) (resp : HttpResponse)
    (scenario : ScenarioResponse) (hs : resp.statusCode < 400)
    (hd : decodeScenarioResponse resp.body = some scenario) :
    CreateScenario req resp = .ok scenario := by
  unfold CreateScenario
  rw [if_neg (by omega), hd]

/-- UpdateScenario reduced on a success response with a decodable body. -/
theorem updateScenario_ok (id : String) (req : ScenarioRequest) (resp : HttpResponse)
    (scenario : ScenarioResponse) (hs : resp.statusCode < 400)
    (hd : decodeScenarioResponse resp.body = some scenario) :
    UpdateScenario id req resp = .ok scenario := by
  unfold UpdateScenario
  rw [if_neg (by omega), if_neg (by omega), hd]

/-- The Read/Update mapping writes description null exactly when the
remote description is empty. -/
theorem scenarioRefreshState_description (data : ScenarioResourceModel)
    (scenario : ScenarioResponse) :
    (scenarioRefreshState data scenario).description =
      (if scenario.description = "" then .null else .value scenario.description) := by
  unfold scenarioRefreshState
  by_cases h1 : scenario.description = "" <;> by_cases h2 : scenario.teamID = "" <;>
    simp [h1, h2]

/-- The Read/Update mapping writes team_id null exactly when the remote
team_id is empty. -/
theorem scenarioRefreshState_teamId (data : ScenarioResourceModel)
    (scenario : ScenarioResponse) :
    (scenarioRefreshState data scenario).teamId =
      (if scenario.teamID = "" then .null else .value scenario.teamID) := by
  unfold scenarioRefreshState
  by_cases h1 : scenario.description = "" <;> by_cases h2 : scenario.teamID = "" <;>
    simp [h1, h2]

/-- The Read/Update mapping always takes the identifier from the response. -/
theorem scenarioRefreshState_id (data : ScenarioResourceModel)
    (scenario : ScenarioResponse) :
    (scenarioRefreshState data scenario).id = .value scenario.id := by
  unfold scenarioRefreshState
  by_cases h1 : scenario.description = "" <;> by_cases h2 : scenario.teamID = "" <;>
    simp [h1, h2]

/-- The Create mapping keeps the planned description when the remote one
is empty, and takes the remote one otherwise. -/
theorem scenarioCreateMapState_description (data : ScenarioResourceModel)
    (scenario : ScenarioResponse) :
    (scenarioCreateMapState data scenario).description =
      (if scenario.description = "" then data.description
       else .value scenario.description) := by
  unfold scenarioCreateMapState
  by_cases h1 : scenario.description = "" <;> by_cases h2 : scenario.teamID = "" <;>
    simp [h1, h2]

/-- The Create mapping keeps the planned team_id when the remote one is
empty, and takes the remote one otherwise. -/
theorem scenarioCreateMapState_teamId (data : ScenarioResourceModel)
    (scenario : ScenarioResponse) :
    (scenarioCreateMapState data scenario).teamId =
      (if scenario.teamID = "" then data.teamId else .value scenario.teamID) := by
  unfold scenarioCreateMapState
  by_cases h1 : scenario.description = "" <;> by_cases h2 : scenario.teamID = "" <;>
    simp [h1, h2]

/-- The Create mapping always takes the identifier from the response. -/
theorem scenarioCreateMapState_id (data : ScenarioResourceModel)
    (scenario : ScenarioResponse) :
    (scenarioCreateMapState data scenario).id = .value scenario.id := by
  unfold scenarioCreateMapState
  by_cases h1 : scenario.description = "" <;> by_cases h2 : scenario.teamID = "" <;>
    simp [h1, h2]

/-- scenarioResourceRead reduced on a success response. -/
theorem scenarioResourceRead_ok (prior : ScenarioResourceModel) (resp : HttpResponse)
    (scenario : ScenarioResponse) (hs : resp.statusCode < 400)
    (hd : decodeScenarioResponse resp.body = some scenario) :
    scenarioResourceRead prior resp =
      { calls := [.get prior.id.valueString], diag := none, removed := false,
        state := scenarioRefreshState prior scenario } := by
  unfold scenarioResourceRead
  simp only [getScenario_ok _ _ _ hs hd]

/-- scenarioResourceUpdate reduced on a success response. -/
theorem scenarioResourceUpdate_ok (prior plan : ScenarioResourceModel)
    (resp : HttpResponse) (scenario : ScenarioResponse) (hs : resp.statusCode < 400)
    (hd : decodeScenarioResponse resp.body = some scenario) :
    scenarioResourceUpdate prior plan resp =
      { calls := [.update plan.id.valueString (buildScenarioRequest plan)],
        diag := none, state := scenarioRefreshState plan scenario } := by
  unfold scenarioResourceUpdate
  simp only [updateScenario_ok _ _ _ _ hs hd]

/-- scenarioResourceCreate reduced on a success response. -/
theorem scenarioResourceCreate_ok (plan : ScenarioResourceModel)
    (resp : HttpResponse) (scenario : ScenarioResponse) (hs : resp.statusCode < 400)
    (hd : decodeScenarioResponse resp.body = some scenario) :
    scenarioResourceCreate plan resp =
      { calls := [.create (buildScenarioRequest plan)], diag := none,
        state := some (scenarioCreateMapState plan scenario) } := by
  unfold scenarioResourceCreate
  simp only [createScenario_ok _ _ _ hs hd]

/-- C2: For every resource kind and every identifier, delete(id) returns
success when the remote responds 404, so a second delete in succession
never fails regardless of whether the first call actually removed the
resource (stub backend answering 200 while present and 404 once gone);
any other status of 400 or above yields an error. -/
theorem delete_is_idempotent (id : String) (resp : HttpResponse) :
    (resp.statusCode = 404 → DeleteScenario id resp = .ok ())
    ∧ (400 ≤ resp.statusCode → resp.statusCode ≠ 404 →
        DeleteScenario id resp = .error (HandleErrorResponse resp))
    ∧ (∀ firstRemoved secondRemoved : Bool,
        DeleteScenario id (stubDeleteResponse firstRemoved) = .ok ()
        ∧ DeleteScenario id (stubDeleteResponse secondRemoved) = .ok ()) := by
  refine ⟨fun h404 => ?_, fun hge hne => ?_, fun b1 b2 => ⟨?_, ?_⟩⟩
  · unfold DeleteScenario
    rw [if_pos h404]
  · unfold DeleteScenario
    rw [if_neg hne, if_pos hge]
  · cases b1 <;> rfl
  · cases b2 <;> rfl

/-- Witness for C2 at a concrete input: deleting scenario 42 against a 404
response succeeds. -/
theorem delete_is_idempotent_witness :
    DeleteScenario "42" { statusCode := 404, body := "" } = .ok () :=
  (delete_is_idempotent "42" { statusCode := 404, body := "" }).1 rfl

/-- C4: every error response is reported with the message chosen by the
extraction policy of the spec (non-empty message field, else non-empty
error field, else the raw body, the latter also on a parse failure),
wrapped in the fixed status-bearing format; in particular a 500 carrying
a JSON body whose message is bad extracts bad, and a 500 with an
unparseable body extracts the body verbatim. -/
theorem error_message_extraction_policy :
    (∀ resp : HttpResponse,
      HandleErrorResponse resp =
        { message := apiFailMsg resp.statusCode (specExtractedMessage resp.body) })
    ∧ specExtractedMessage "\x7b\"message\":\"bad\"\x7d" = "bad"
    ∧ specExtractedMessage "oops not json" = "oops not json"
    ∧ HandleErrorResponse { statusCode := 500, body := "\x7b\"message\":\"bad\"\x7d" }
        = { message := apiFailMsg 500 "bad" }
    ∧ HandleErrorResponse { statusCode := 500, body := "oops not json" }
        = { message := apiFailMsg 500 "oops not json" } := by
  refine ⟨fun resp => ?_, by decide, by decide, by decide, by decide⟩
  unfold HandleErrorResponse specExtractedMessage
  cases hu : unmarshalErrorResponse resp.body with
  | none => rfl
  | some parsed =>
    by_cases h1 : parsed.message = "" <;> by_cases h2 : parsed.error = "" <;>
      simp [h1, h2]

/-- C10: when the error body parses and both fields are non-empty, the
message field wins; the error field is consulted only when the message
field is empty. -/
theorem error_message_precedence (resp : HttpResponse) (parsed : ErrorResponse)
    (hp : unmarshalErrorResponse resp.body = some parsed) :
    (parsed.message ≠ "" →
      HandleErrorResponse resp = { message := apiFailMsg resp.statusCode parsed.message })
    ∧ (parsed.message = "" → parsed.error ≠ "" →
      HandleErrorResponse resp = { message := apiFailMsg resp.statusCode parsed.error }) := by
  constructor
  · intro hm
    unfold HandleErrorResponse
    rw [hp]
    simp [hm]
  · intro hm he
    unfold HandleErrorResponse
    rw [hp]
    simp [hm, he]

/-- Witness for C10 at a concrete input: a body carrying both fields
extracts the message field. -/
theorem error_message_precedence_witness :
    HandleErrorResponse { statusCode := 500, body := "\x7b\"error\":\"e\",\"message\":\"m\"\x7d" }
      = { message := apiFailMsg 500 "m" } :=
  (error_message_precedence
      { statusCode := 500, body := "\x7b\"error\":\"e\",\"message\":\"m\"\x7d" }
      { error := "e", message := "m", code := 0 } (by decide)).1 (by decide)

/-- C7: get(id) on a remote 404 yields the dedicated not-found error,
which embeds the identifier and is never equal to any error the generic
error handler produces, so a caller can tell the two apart. -/
theorem get_404_distinct_not_found (id : String) (resp : HttpResponse)
    (h404 : resp.statusCode = 404) :
    GetScenario id resp = .error { message := scenarioNotFoundMsg id }
    ∧ (∃ before after, scenarioNotFoundMsg id = before ++ (id ++ after))
    ∧ (∀ other : HttpResponse,
        GoError.mk (scenarioNotFoundMsg id) ≠ HandleErrorResponse other) := by
  refine ⟨?_, ⟨"scenario with ID ", " not found", rfl⟩, fun other => ?_⟩
  · unfold GetScenario
    rw [if_pos h404]
  · intro heq
    obtain ⟨detail, hshape⟩ := handleErrorResponse_shape other
    rw [hshape] at heq
    exact scenarioNotFoundMsg_ne_apiFailMsg id other.statusCode detail
      (congrArg GoError.message heq)

/-- Witness for C7 at a concrete input: scenario 42 against a 404. -/
theorem get_404_distinct_not_found_witness :
    GetScenario "42" { statusCode := 404, body := "" }
      = .error { message := scenarioNotFoundMsg "42" } :=
  (get_404_distinct_not_found "42" { statusCode := 404, body := "" } rfl).1

/-- A get response echoing the stored identifier a. -/
def readRespEchoId : HttpResponse :=
  { statusCode := 200,
    body := "\x7b\"id\":\"a\",\"name\":\"n\",\"is_active\":true\x7d" }

/-- C1 counterexample: a create whose response carries an empty
description while the desired record carried the non-empty value keep me
leaves the local field at that stale value, not null, and no error is
reported, so null-normalization is not applied after a create response. -/
theorem create_keeps_stale_description :
    ((scenarioResourceCreate demoPlan createRespEmptyOptional).state.map
      fun d => d.description) = some (TFString.value "keep me")
    ∧ (scenarioResourceCreate demoPlan createRespEmptyOptional).diag = none := by
  decide

/-- C1 as amended: null-normalization of empty optional fields is applied
after read and update responses only; after a create response an optional
field is overwritten just when the remote value is non-empty, and the
planned value is retained otherwise. -/
theorem null_normalization_read_update_only (prior plan : ScenarioResourceModel)
    (resp : HttpResponse) (scenario : ScenarioResponse)
    (hs : resp.statusCode < 400)
    (hd : decodeScenarioResponse resp.body = some scenario) :
    ((scenarioResourceRead prior resp).state.description
        = if scenario.description = "" then .null else .value scenario.description)
    ∧ ((scenarioResourceRead prior resp).state.teamId
        = if scenario.teamID = "" then .null else .value scenario.teamID)
    ∧ ((scenarioResourceUpdate prior plan resp).state.description
        = if scenario.description = "" then .null else .value scenario.description)
    ∧ ((scenarioResourceUpdate prior plan resp).state.teamId
        = if scenario.teamID = "" then .null else .value scenario.teamID)
    ∧ (((scenarioResourceCreate plan resp).state.map fun d => d.description)
        = some (if scenario.description = "" then plan.description
                else .value scenario.description))
    ∧ (((scenarioResourceCreate plan resp).state.map fun d => d.teamId)
        = some (if scenario.teamID = "" then plan.teamId
                else .value scenario.teamID)) := by
  simp [scenarioResourceRead_ok prior resp scenario hs hd,
    scenarioResourceUpdate_ok prior plan resp scenario hs hd,
    scenarioResourceCreate_ok plan resp scenario hs hd,
    scenarioRefreshState_description, scenarioRefreshState_teamId,
    scenarioCreateMapState_description, scenarioCreateMapState_teamId]

/-- Witness for the amended C1 at a concrete input: a read against a
response with empty description ends with a null description. -/
theorem null_normalization_read_update_only_witness :
    (scenarioResourceRead demoPrior createRespEmptyOptional).state.description
      = TFString.null := by
  have h := null_normalization_read_update_only demoPrior demoPlan
    createRespEmptyOptional
    { id := "x", name := "n", description := "", active := true, teamID := "" }
    (by decide) (by decide)
  exact h.1.trans (by decide)

/-- C3 counterexample: a plain read of record a against a remote 404
surfaces a diagnostic error and does not report the record as gone. -/
theorem read_404_surfaces_error :
    (scenarioResourceRead demoPrior { statusCode := 404, body := "" }).removed = false
    ∧ (scenarioResourceRead demoPrior { statusCode := 404, body := "" }).diag
        = some { message := "Unable to read scenario, got error: scenario with ID a not found" } := by
  decide

/-- C3 as amended: on plain read a remote 404 is surfaced as an error
diagnostic like any other failure, the record is neither dropped nor
changed, and not-found is converted into success only on delete. -/
theorem read_404_error_delete_404_success (prior : ScenarioResourceModel)
    (resp : HttpResponse) (h404 : resp.statusCode = 404) :
    (scenarioResourceRead prior resp).diag
      = some { message := "Unable to read scenario, got error: "
          ++ scenarioNotFoundMsg prior.id.valueString }
    ∧ (scenarioResourceRead prior resp).removed = false
    ∧ (scenarioResourceRead prior resp).state = prior
    ∧ (scenarioResourceDelete prior resp).diag = none := by
  have hget : GetScenario prior.id.valueString resp
      = .error { message := scenarioNotFoundMsg prior.id.valueString } := by
    unfold GetScenario
    rw [if_pos h404]
  have hdel : DeleteScenario prior.id.valueString resp = .ok () := by
    unfold DeleteScenario
    rw [if_pos h404]
  unfold scenarioResourceRead scenarioResourceDelete
  simp [hget, hdel]

/-- Witness for the amended C3 at a concrete input: deleting record a
against a 404 adds no diagnostic. -/
theorem read_404_error_delete_404_success_witness :
    (scenarioResourceDelete demoPrior { statusCode := 404, body := "" }).diag = none :=
  (read_404_error_delete_404_success demoPrior { statusCode := 404, body := "" } rfl).2.2.2

/-- C8: update(id, request) on a remote 404 reports the not-found as an
error, leaves the local record unchanged, and attempts no create of a
replacement resource. -/
theorem update_404_no_recreate (prior plan : ScenarioResourceModel)
    (resp : HttpResponse) (h404 : resp.statusCode = 404) :
    (scenarioResourceUpdate prior plan resp).diag
      = some { message := "Unable to update scenario, got error: "
          ++ scenarioNotFoundMsg plan.id.valueString }
    ∧ (scenarioResourceUpdate prior plan resp).state = prior
    ∧ ∀ c ∈ (scenarioResourceUpdate prior plan resp).calls, c.isCreate = false := by
  have hupd : UpdateScenario plan.id.valueString (buildScenarioRequest plan) resp
      = .error { message := scenarioNotFoundMsg plan.id.valueString } := by
    unfold UpdateScenario
    rw [if_pos h404]
  unfold scenarioResourceUpdate
  simp only [hupd]
  refine ⟨by simp, by simp, ?_⟩
  intro c hc
  simp only [List.mem_singleton] at hc
  subst hc
  rfl

/-- Witness for C8 at a concrete input: the prior record survives an
update against a 404. -/
theorem update_404_no_recreate_witness :
    (scenarioResourceUpdate demoPrior demoPlan { statusCode := 404, body := "" }).state
      = demoPrior :=
  (update_404_no_recreate demoPrior demoPlan { statusCode := 404, body := "" } rfl).2.1

/-- C9 counterexample: a successful read whose response carries the
identifier b overwrites the known local identifier a, so a successful
operation can change an already known identifier. -/
theorem read_overwrites_identifier :
    demoPrior.id = TFString.value "a"
    ∧ (scenarioResourceRead demoPrior readRespDifferentId).diag = none
    ∧ (scenarioResourceRead demoPrior readRespDifferentId).state.id
        = TFString.value "b" := by
  decide

/-- C9 as amended: create and import fix the identifier from the response
and the import ID respectively; afterwards, successful read and update
preserve a known identifier provided the response echoes it (the code
always copies the response identifier into state). -/
theorem identifier_stable_when_remote_echoes (prior plan : ScenarioResourceModel)
    (resp : HttpResponse) (scenario : ScenarioResponse) (i : String)
    (hs : resp.statusCode < 400)
    (hd : decodeScenarioResponse resp.body = some scenario) :
    (((scenarioResourceCreate plan resp).state.map fun d => d.id)
        = some (.value scenario.id))
    ∧ (prior.id = .value i → scenario.id = i →
        (scenarioResourceRead prior resp).state.id = .value i)
    ∧ (plan.id = .value i → scenario.id = i →
        (scenarioResourceUpdate prior plan resp).state.id = .value i)
    ∧ (scenarioImportState i).id = .value i := by
  refine ⟨?_, ?_, ?_, rfl⟩
  · simp [scenarioResourceCreate_ok plan resp scenario hs hd, scenarioCreateMapState_id]
  · intro hpi hsi
    simp [scenarioResourceRead_ok prior resp scenario hs hd, scenarioRefreshState_id, hsi]
  · intro hpi hsi
    simp [scenarioResourceUpdate_ok prior plan resp scenario hs hd, scenarioRefreshState_id, hsi]

/-- Witness for the amended C9 at a concrete input: a read of record a
whose response echoes a keeps the identifier a. -/
theorem identifier_stable_when_remote_echoes_witness :
    (scenarioResourceRead demoPrior readRespEchoId).state.id = TFString.value "a" :=
  (identifier_stable_when_remote_echoes demoPrior demoPlan readRespEchoId
      { id := "a", name := "n", description := "", active := true, teamID := "" } "a"
      (by decide) (by decide)).2.1 (by decide) (by decide)

/-- C5: the settings type switch realizes the per-type policy of the
spec (the two definitions agree on every value), with the literal
conversions checked: strings pass through, 42 to 42, 3.14 (the rational
157/50) to 3.140000,
true to true, unsigned 100 to 100, a negative integer keeps its sign,
a nested structure falls back to its generic rendering, and every float
rendering ends in exactly six fraction digits. -/
theorem settings_normalization_policy :
    (∀ v : GoValue, renderSettingValue v = specNormalizeValue v)
    ∧ renderSettingValue (.str "test_string") = "test_string"
    ∧ renderSettingValue (.int 42) = "42"
    ∧ renderSettingValue (.float (mkRat 157 50)) = "3.140000"
    ∧ renderSettingValue (.bool true) = "true"
    ∧ renderSettingValue (.uint 100) = "100"
    ∧ renderSettingValue (.int (-7)) = "-7"
    ∧ renderSettingValue (.other "map[key:value]") = "map[key:value]"
    ∧ (∀ q : ℚ, ∃ front,
        renderSettingValue (.float q)
          = front ++ ("." ++ fracDigits6 ((roundScaled6 q).natAbs))
        ∧ (fracDigits6 ((roundScaled6 q).natAbs)).length = 6) := by
  refine ⟨fun v => by cases v <;> rfl, by decide, by decide, by decide, by decide,
    by decide, by decide, by decide, fun q => ⟨_, rfl, rfl⟩⟩

/-- C6: settings normalization is total: it touches exactly the input
keys, and every entry, of whatever variant (the fallback included),
becomes a string entry under its key. -/
theorem settings_normalization_total (settings : List (String × GoValue)) :
    ((convertSettingsToStringMap settings).map Prod.fst = settings.map Prod.fst)
    ∧ ∀ k v, (k, v) ∈ settings →
        (k, renderSettingValue v) ∈ convertSettingsToStringMap settings := by
  constructor
  · unfold convertSettingsToStringMap
    rw [List.map_map]
    rfl
  · intro k v hkv
    exact List.mem_map_of_mem _ hkv

/-- Witness for C6 at a concrete input: a nested-structure value is
carried to its fallback rendering under its key. -/
theorem settings_normalization_total_witness :
    ("complex_val", "map[key:value]") ∈
      convertSettingsToStringMap [("complex_val", GoValue.other "map[key:value]")] :=
  (settings_normalization_total [("complex_val", GoValue.other "map[key:value]")]).2
    "complex_val" (.other "map[key:value]") (by decide)

end Make
